import Mathlib

/-!
Verification of the extraction and normalization pipeline of
`src/web_scraping.py` (an imdb.com scraper producing movie records).

Strings are embedded as lists of characters (`Str`); each Python string
operation used by the source (`strip`, `split`, `replace`, `in`, `int()`,
`str.isdigit`, negative list indexing, `re.sub` with the two patterns the
source uses) is given its own executable Lean model below.  A fetched,
parsed page (a BeautifulSoup object) is embedded as a `Page` record holding
exactly the query results the source's extractors read; the network is a
function from URL to `Page`, and `get_movie_dict` additionally returns the
ordered list of URLs it fetched.
-/

/-- Python strings, embedded as lists of characters. -/
abbrev Str := List Char

/-- Coerce a Lean string literal into the `Str` embedding. -/
def str (x : String) : Str := x.toList

/-- The whitespace set of Python's default `str.strip()` / `str.split()`. -/
def pyIsSpace (c : Char) : Bool :=
  c = ' ' || c = '\t' || c = '\n' || c = '\r' || c = '\x0b' || c = '\x0c'

/-- Python `s.strip()`: drop leading and trailing whitespace. -/
def pyStrip (l : Str) : Str :=
  ((l.dropWhile pyIsSpace).reverse.dropWhile pyIsSpace).reverse

/-- Worker for `pySplit`: `acc` is the current token, reversed. -/
def pySplitGo : Str → Str → List Str
  | [], acc => if acc = [] then [] else [acc.reverse]
  | c :: rest, acc =>
    if pyIsSpace c then
      if acc = [] then pySplitGo rest [] else acc.reverse :: pySplitGo rest []
    else pySplitGo rest (c :: acc)

/-- Python `s.split()` (no argument): split on whitespace runs, no empties. -/
def pySplit (l : Str) : List Str := pySplitGo l []

/-- Does `pat` occur at the head of `l`? -/
def strStartsWith : Str → Str → Bool
  | _, [] => true
  | [], _ :: _ => false
  | c :: l, d :: p => c = d && strStartsWith l p

/-- Python `pat in hay`: substring containment. -/
def strContains : Str → Str → Bool
  | [], pat => strStartsWith [] pat
  | c :: rest, pat => strStartsWith (c :: rest) pat || strContains rest pat

/-- Worker for `replaceAll`, structurally recursive on fuel (which is kept
at least the length of the remaining text). -/
def replaceAllAux (pat rep : Str) : Nat → Str → Str
  | _, [] => []
  | 0, l => l
  | Nat.succ f, c :: rest =>
    if pat ≠ [] && strStartsWith (c :: rest) pat then
      rep ++ replaceAllAux pat rep f ((c :: rest).drop pat.length)
    else
      c :: replaceAllAux pat rep f rest

/-- Python `s.replace(pat, rep)`: replace every occurrence, leftmost first,
non-overlapping.  (The source never calls it with an empty pattern; an
empty pattern is modelled as the identity.) -/
def replaceAll (x pat rep : Str) : Str := replaceAllAux pat rep x.length x

/-- Tail of a Python `int()` digit sequence: digits, with single
underscores allowed only between digits. -/
def digitsTailOk : Str → Bool
  | [] => true
  | c :: rest =>
    if c.isDigit then digitsTailOk rest
    else if c = '_' then
      match rest with
      | [] => false
      | d :: _ => d.isDigit && digitsTailOk rest
    else false

/-- A valid Python `int()` digit sequence (nonempty, starts with a digit). -/
def digitsOk : Str → Bool
  | [] => false
  | c :: rest => c.isDigit && digitsTailOk rest

/-- Numeric value of a digit sequence, ignoring underscores. -/
def digitsVal (l : Str) : Nat :=
  l.foldl (fun acc c => if c.isDigit then acc * 10 + (c.toNat - 48) else acc) 0

/-- Python `int(s)`: strip whitespace, optional sign, digit sequence;
`none` models the `ValueError` raised on any other shape. -/
def pyIntParse (x : Str) : Option Int :=
  match pyStrip x with
  | '+' :: rest => if digitsOk rest then some (digitsVal rest) else none
  | '-' :: rest => if digitsOk rest then some (-(digitsVal rest : Int)) else none
  | l => if digitsOk l then some (digitsVal l) else none

/-- Python `l[i]` with negative-index wrap-around; `none` models the
`IndexError` raised when the index is out of range either way. -/
def pyGet (l : List α) (i : Int) : Option α :=
  if 0 ≤ i then l.get? i.toNat
  else if (-i).toNat ≤ l.length then l.get? (l.length - (-i).toNat)
  else none

/-- Python `str.isdigit()` on the ASCII inputs the source meets:
nonempty and all digits. -/
def isDigitTok (t : Str) : Bool := !t.isEmpty && t.all Char.isDigit

/-- Python `l.index(x)`: the index of the first occurrence, `none`
modelling the `ValueError` when `x` is absent. -/
def pyIndexOf (l : List Str) (x : Str) : Option Nat :=
  match l with
  | [] => none
  | y :: rest => if y = x then some 0 else (pyIndexOf rest x).map (· + 1)

/-- Decimal rendering of a number, Python `str(n)`. -/
def natToStr (n : Nat) : Str := (toString n).toList

/-- Worker for `reSubDotPlus`.  While `dropping` we are inside a matched
`marker.+` run, which extends over every non-newline character. -/
def reSubDotPlusAux (marker : Char) : Bool → Str → Str
  | _, [] => []
  | dropping, c :: rest =>
    if dropping && c ≠ '\n' then reSubDotPlusAux marker true rest
    else if c = marker && (match rest with | [] => false | d :: _ => d ≠ '\n') then
      reSubDotPlusAux marker true rest
    else c :: reSubDotPlusAux marker false rest

/-- Python `re.sub(marker + '.+', '', s)` for a single-character marker:
delete every occurrence of the marker followed by a nonempty run of
non-newline characters (`.` does not match a newline; `+` is greedy). -/
def reSubDotPlus (marker : Char) (x : Str) : Str := reSubDotPlusAux marker false x

/-- Replace only the first occurrence of `pat`.

Modelled from the spec: "substituting the offset token in the second URL"
describes a single-point substitution, unlike the source's global
`str.replace`; this definition realizes the spec's wording for comparison. -/
def replaceFirstAux (pat rep : Str) : Str → Str
  | [] => []
  | c :: rest =>
    if pat ≠ [] && strStartsWith (c :: rest) pat then
      rep ++ (c :: rest).drop pat.length
    else c :: replaceFirstAux pat rep rest

-- Quick sanity examples for the string model (kernel-checked).
example : pySplit (str "  a b  c ") = [str "a", str "b", str "c"] := by decide
example : pyStrip (str "  ab ") = str "ab" := by decide
example : strContains (str "xJapany") (str "Japan") = true := by decide
example : replaceAll (str "a101b101") (str "101") (str "201") = str "a201b201" := by decide
example : pyIntParse (str "1400") = some 1400 := by decide
example : pyIntParse (str "1234567 (estimated)") = none := by decide
example : pyGet [str "titles.", str "5"] (-1) = some (str "5") := by decide
example : reSubDotPlus '\n' (str "$1234567\n(estimated)") = str "$1234567" := by decide
example : reSubDotPlus '\n' (str "a\n\nb") = str "a\n" := by decide
example : natToStr 201 = str "201" := by decide
example : replaceFirstAux (str "101") (str "201") (str "a101b101") = str "a201b101" := by decide

/-!
Data model: a fetched, parsed page.  Each field holds exactly one
BeautifulSoup query result that the source reads; `none` (or `[]`) models
a query that finds nothing.
-/

/-- One element of `soup.find_all('h4')`: its direct string children
(Python `'label' in element` tests membership among these), the text of
`element.findParent()`, and the text of `element.findNext()`. -/
structure H4 where
  childStrings : List Str
  parentText : Str
  nextText : Str

/-- A parsed page, holding the query results the source's extractors use. -/
structure Page where
  /-- Text of `soup.find('h1')`, when present. -/
  h1Text : Option Str
  /-- The elements of `soup.find_all('h4')`. -/
  h4s : List H4
  /-- Text of `soup.find('div', class_='desc').findNext()`, when the
  `desc` block exists (its absence crashes the source with an
  `AttributeError`, modelled as `none`). -/
  descNextText : Option Str
  /-- Text of `soup.find(text='Budget:').findParent().findParent()`. -/
  budgetBlockText : Option Str
  /-- Text of `soup.find('div', class_='subtext')`. -/
  subtextText : Option Str
  /-- Text of `soup.find(text='Genres:').findParent().findParent()`. -/
  genresBlockText : Option Str
  /-- Text of `soup.find('span', itemprop='ratingValue')`. -/
  ratingValueText : Option Str
  /-- Text of `soup.find(itemprop='ratingCount')`. -/
  ratingCountText : Option Str
  /-- Text of `soup.find('span', class_='awards-blurb')`. -/
  awardsBlurbText : Option Str
  /-- Text of `soup.find('span', class_='awards-blurb').findNextSibling()`,
  when that sibling exists. -/
  awardsBlurbSiblingText : Option Str
  /-- Text of `soup.find('div', class_='metacriticScore')`. -/
  metascoreText : Option Str
  /-- Text of `soup.find(href='/calendar/?region=jp').findNext()`. -/
  jpCalendarNextText : Option Str
  /-- Text of `soup.find(title='See more release dates')`. -/
  seeMoreReleaseText : Option Str

/-- A page on which every query comes back empty. -/
def emptyPage : Page :=
  { h1Text := none, h4s := [], descNextText := none, budgetBlockText := none,
    subtextText := none, genresBlockText := none, ratingValueText := none,
    ratingCountText := none, awardsBlurbText := none,
    awardsBlurbSiblingText := none, metascoreText := none,
    jpCalendarNextText := none, seeMoreReleaseText := none }

/-- A calendar date, for the pinned FX reference date. -/
structure PyDate where
  year : Nat
  month : Nat
  day : Nat

/-- `datetime(2020, 7, 10)`, the pinned FX conversion date. -/
def jul_10_2020 : PyDate := { year := 2020, month := 7, day := 10 }

/-- The FX-rate collaborator: `CurrencyRates().convert(frm, to, amount,
date)`.  Its rates are external data, so it is a parameter of the
embedding; its numeric output is abstracted to an integer. -/
abbrev Conv := Str → Str → Int → PyDate → Int

/-- The record assembled per detail link (the dict built by
`get_movie_dict`).  The user-rating value and the parsed Japan release
date are kept as their source text: the former is a `float(...)` and the
latter a `dateutil` parse, and no claim depends on either parsed value,
only on presence. -/
structure MovieRecord where
  title : Option Str
  country : Option Str
  runtime_minutes : Option Int
  budget : Option Int
  global_gross : Option Int
  mpaa_rating : Option Str
  japan_release_date : Option Str
  usa_release_date : Option Str
  genres : Option Str
  imdb_user_rating : Option Str
  imdb_user_rating_count : Option Int
  oscar_wins : Option Int
  non_oscar_wins : Option Int
  metascore : Option Int

/-!
Value normalizers (`clean_title` .. `fx_to_dollars_int` in the source).
-/

/-- `re.sub('\xa0.+', '', string)`. -/
def clean_title (x : Str) : Str := reSubDotPlus '\xa0' x

/-- `string.replace(',', '')`. -/
def remove_commas (x : Str) : Str := replaceAll x (str ",") []

/-- Strip the label, the commas, then `re.sub('\n.+', '', string)`. -/
def clean_budget (x : Str) : Str :=
  reSubDotPlus '\n' (remove_commas (replaceAll x (str "Budget:") []))

/-- Strip the label, `re.sub('\n ', '', ...)`, then replace the
`'\xa0|'` separator with `', '` (both patterns are literal). -/
def clean_genres (x : Str) : Str :=
  replaceAll (replaceAll (replaceAll x (str "Genres:") []) (str "\n ") [])
    (str "\xa0|") (str ", ")

/-- `dateutil.parser.parse`: a permissive natural-language date parse.
The parsed value is kept as its source text; every claim about it
depends only on whether it is present. -/
def to_datetime (x : Str) : Str := x

/-- Drop the `'$'` characters and run `int(...)` (`none` = `ValueError`). -/
def dollars_to_int (x : Str) : Option Int :=
  pyIntParse (replaceAll x (str "$") [])

/-- `c.convert(budget[:3], 'USD', int(budget[3:]), jul_10_2020)`:
leading three characters are the currency code, the rest the amount. -/
def fx_to_dollars_int (convert : Conv) (budget : Str) : Option Int :=
  match pyIntParse (budget.drop 3) with
  | none => none
  | some amt => some (convert (budget.take 3) (str "USD") amt jul_10_2020)

/-!
Field extractors.
-/

/-- `get_title`: text of the first `h1`, stripped and cleaned. -/
def get_title (soup : Page) : Option Str :=
  match soup.h1Text with
  | none => none
  | some t => some (clean_title (pyStrip t))

/-- The scanning loop of `get_country`: each `h4` holding a `'Country:'`
string child is inspected; a text matching Japan and/or USA returns at
once, and otherwise the loop continues with the next element. -/
def countryLoop : List H4 → Option Str
  | [] => none
  | e :: rest =>
    if e.childStrings.contains (str "Country:") then
      if strContains (pyStrip e.parentText) (str "Japan")
          && strContains (pyStrip e.parentText) (str "USA") then
        some (str "Japan, USA")
      else if strContains (pyStrip e.parentText) (str "Japan") then
        some (str "Japan")
      else if strContains (pyStrip e.parentText) (str "USA") then
        some (str "USA")
      else countryLoop rest
    else countryLoop rest

/-- `get_country`. -/
def get_country (soup : Page) : Option Str := countryLoop soup.h4s

/-- The scanning loop of `get_runtime`: the first `h4` holding a
`'Runtime:'` string child returns `int(findNext().text.split()[0])`
(`none` models both the `IndexError` on an empty split and the
`ValueError` of `int`). -/
def runtimeLoop : List H4 → Option Int
  | [] => none
  | e :: rest =>
    if e.childStrings.contains (str "Runtime:") then
      match pySplit e.nextText with
      | [] => none
      | t :: _ => pyIntParse t
    else runtimeLoop rest

/-- `get_runtime`. -/
def get_runtime (soup : Page) : Option Int := runtimeLoop soup.h4s

/-- `get_budget`: clean the stripped enclosing-block text; a remaining
`'$'` means a direct USD parse, otherwise FX conversion. -/
def get_budget (convert : Conv) (soup : Page) : Option Int :=
  match soup.budgetBlockText with
  | none => none
  | some raw =>
    if strContains (clean_budget (pyStrip raw)) (str "$") then
      dollars_to_int (clean_budget (pyStrip raw))
    else
      fx_to_dollars_int convert (clean_budget (pyStrip raw))

/-- The scanning loop of `get_global_gross`: the first `h4` holding the
gross label returns the parsed parent text. -/
def grossLoop : List H4 → Option Int
  | [] => none
  | e :: rest =>
    if e.childStrings.contains (str "Cumulative Worldwide Gross:") then
      dollars_to_int (remove_commas
        (replaceAll (pyStrip e.parentText) (str "Cumulative Worldwide Gross: ") []))
    else grossLoop rest

/-- `get_global_gross`. -/
def get_global_gross (soup : Page) : Option Int := grossLoop soup.h4s

/-- The ratings list of `get_mpaa_rating`.  The source writes the last
two entries as `'TV-14' 'TV-MA'` with no comma between them, and Python
concatenates adjacent string literals, so the list really ends in the
single string `TV-14TV-MA`. -/
def mpaa_ratings : List Str :=
  [str "G", str "PG", str "PG-13", str "R", str "TV-Y", str "TV-Y7",
   str "TV-Y7 FV", str "TV-G", str "TV-PG", str "TV-14TV-MA"]

/-- `get_mpaa_rating`: first whitespace token of the stripped `subtext`
block, accepted only when it is in `mpaa_ratings`.  (An all-whitespace
subtext raises `IndexError` in the source; modelled as `none`.) -/
def get_mpaa_rating (soup : Page) : Option Str :=
  match soup.subtextText with
  | none => none
  | some t =>
    match pySplit (pyStrip t) with
    | [] => none
    | rating :: _ => if mpaa_ratings.contains rating then some rating else none

/-- `get_japan_release_date`: the text after the region-jp calendar link,
parsed by `to_datetime`. -/
def get_japan_release_date (soup : Page) : Option Str :=
  match soup.jpCalendarNextText with
  | none => none
  | some raw => some (to_datetime raw)

/-- `get_usa_release_date`: the see-more-release-dates anchor text,
stripped, with the `' (USA)'` suffix occurrences removed. -/
def get_usa_release_date (soup : Page) : Option Str :=
  match soup.seeMoreReleaseText with
  | none => none
  | some t => some (replaceAll (pyStrip t) (str " (USA)") [])

/-- `get_genres`. -/
def get_genres (soup : Page) : Option Str :=
  match soup.genresBlockText with
  | none => none
  | some t => some (clean_genres (pyStrip t))

/-- `get_user_rating` (`float(text)` in the source; kept as text). -/
def get_user_rating (soup : Page) : Option Str := soup.ratingValueText

/-- `get_user_rating_count`: `int(remove_commas(text))`. -/
def get_user_rating_count (soup : Page) : Option Int :=
  match soup.ratingCountText with
  | none => none
  | some t => pyIntParse (remove_commas t)

/-- First whitespace token that is all digits, as an integer (the
`for string in raw.split(): if string.isdigit(): return int(string)`
loops of the awards extractors). -/
def firstDigitToken (raw : Str) : Option Int :=
  match (pySplit raw).find? isDigitTok with
  | none => none
  | some t => some (digitsVal t)

/-- `get_oscar_wins`: needs the blurb text to contain `'Won'`, then
returns its first all-digit token. -/
def get_oscar_wins (soup : Page) : Option Int :=
  match soup.awardsBlurbText with
  | none => none
  | some t =>
    if strContains t (str "Won") then firstDigitToken (pyStrip t) else none

/-- `get_non_oscar_wins`: when the blurb text mentions `'Oscar'` and a
following sibling exists whose stripped text contains `'win'`, its first
all-digit token wins; failing any of that (including the sibling text
simply having no digit token), the blurb's own stripped text is tried. -/
def get_non_oscar_wins (soup : Page) : Option Int :=
  match soup.awardsBlurbText with
  | none => none
  | some btext =>
    match
      (if strContains btext (str "Oscar") then
        match soup.awardsBlurbSiblingText with
        | some stext =>
          if strContains (pyStrip stext) (str "win") then
            firstDigitToken (pyStrip stext)
          else none
        | none => none
      else none) with
    | some n => some n
    | none =>
      if strContains (pyStrip btext) (str "win") then
        firstDigitToken (pyStrip btext)
      else none

/-- `get_metascore`: `int(text.strip())`. -/
def get_metascore (soup : Page) : Option Int :=
  match soup.metascoreText with
  | none => none
  | some t => pyIntParse (pyStrip t)

/-!
Orchestration: fetching is a function from URL to `Page`; `create_soup`
additionally appends the fetched URL to a trace, so that the theorems can
speak about which pages a call fetched.
-/

/-- `create_soup(url)`: fetch and parse one page, recording the URL in
the fetch trace. -/
def create_soup (w : Str → Page) (url : Str) (trace : List Str) :
    Page × List Str :=
  (w url, trace ++ [url])

/-- `get_num_titles(base_url)`: fetch the first listing page, split the
text after its `desc` block, locate the first `'titles.'` token, and
parse the token one place before it (Python indexing, so position `-1`
wraps to the last token); `none` models the `ValueError` raised when the
token is missing or unparsable. -/
def get_num_titles (w : Str → Page) (base_url : Str) : Option Int :=
  match (create_soup w base_url []).1.descNextText with
  | none => none
  | some txt =>
    match pyIndexOf (pySplit txt) (str "titles.") with
    | none => none
    | some idx =>
      match pyGet (pySplit txt) ((idx : Int) - 1) with
      | none => none
      | some tok => pyIntParse (replaceAll tok (str ",") [])

/-- `get_search_urls(base_url, next_url)`: the first two URLs followed by
one URL per further page, built by `next_url.replace('101',
str(201+100*i))` for `i in range(num_titles//100 - 1)` (Python `//` is
floor division); `none` propagates the `get_num_titles` failure. -/
def get_search_urls (w : Str → Page) (base_url next_url : Str) :
    Option (List Str) :=
  match get_num_titles w base_url with
  | none => none
  | some num_titles =>
    some (base_url :: next_url ::
      (List.range (Int.fdiv num_titles 100 - 1).toNat).map
        (fun i => replaceAll next_url (str "101") (natToStr (201 + 100 * i))))

/-- `get_movie_dict(link)`: fetch the detail page, run every extractor,
fetch the release-info page, gate the two release-date extractions on the
country, and assemble the record.  Returns the record together with the
ordered fetch trace. -/
def get_movie_dict (w : Str → Page) (convert : Conv) (link : Str) :
    MovieRecord × List Str :=
  let url := str "https://www.imdb.com" ++ link
  let fetched := create_soup w url []
  let soup := fetched.1
  let title := get_title soup
  let country := get_country soup
  let runtime := get_runtime soup
  let budget := get_budget convert soup
  let global_gross := get_global_gross soup
  let mpaa_rating := get_mpaa_rating soup
  let release_info_url := url ++ str "releaseinfo"
  let fetched2 := create_soup w release_info_url fetched.2
  let release_info_soup := fetched2.1
  let dates : Option Str × Option Str :=
    if country = some (str "Japan") then
      (get_japan_release_date release_info_soup, none)
    else if country = some (str "USA") then
      (none, get_usa_release_date release_info_soup)
    else (none, none)
  let genres := get_genres soup
  let imdb_user_rating := get_user_rating soup
  let imdb_user_rating_count := get_user_rating_count soup
  let oscar_wins := get_oscar_wins soup
  let non_oscar_wins := get_non_oscar_wins soup
  let metascore := get_metascore soup
  ({ title := title, country := country, runtime_minutes := runtime,
     budget := budget, global_gross := global_gross,
     mpaa_rating := mpaa_rating, japan_release_date := dates.1,
     usa_release_date := dates.2, genres := genres,
     imdb_user_rating := imdb_user_rating,
     imdb_user_rating_count := imdb_user_rating_count,
     oscar_wins := oscar_wins, non_oscar_wins := non_oscar_wins,
     metascore := metascore }, fetched2.2)

set_option maxRecDepth 100000

/-- The source's first listing URL for the Japanese search. -/
def JAPAN_BASE_URL : Str :=
  str "https://www.imdb.com/search/title/?title_type=feature&release_date=,2020-07-01&genres=animation&countries=jp&sort=release_date,desc&count=100&view=simple"

/-- The source's second listing URL for the Japanese search (offset 101). -/
def JAPAN_NEXT_URL : Str :=
  str "https://www.imdb.com/search/title/?title_type=feature&release_date=,2020-07-01&genres=animation&countries=jp&view=simple&sort=release_date,desc&count=100&start=101&ref_=adv_nxt"

/-!
Helper worlds and pages for concrete instantiations.
-/

/-- A world whose every page is empty. -/
def emptyWorld : Str → Page := fun _ => emptyPage

/-- A world whose every page carries the given description-block text
(all a `get_num_titles` call looks at). -/
def descWorld (d : Str) : Str → Page :=
  fun _ => { emptyPage with descNextText := some d }

/-- A page holding only the given `h4` elements. -/
def pageWithH4s (l : List H4) : Page := { emptyPage with h4s := l }

/-- A page holding only the given awards-blurb text and sibling text. -/
def blurbPage (b : Option Str) (sib : Option Str) : Page :=
  { emptyPage with awardsBlurbText := b, awardsBlurbSiblingText := sib }

/-- An FX collaborator that returns the amount unchanged; used where a
claim needs some concrete collaborator. -/
def idConv : Conv := fun _ _ amt _ => amt

-- Sanity examples for the orchestration layer.
example : get_num_titles (descWorld (str "1-100 of 1,400 titles.")) (str "u") = some 1400 := by decide
example :
    (get_search_urls (descWorld (str "1-100 of 250 titles.")) (str "b") (str "n101")).map List.length = some 3 := by decide
example :
    (get_movie_dict emptyWorld idConv (str "/t/")).2 =
      [str "https://www.imdb.com/t/", str "https://www.imdb.com/t/releaseinfo"] := by decide
example : get_mpaa_rating { emptyPage with subtextText := some (str "PG | 1h") } = some (str "PG") := by decide
example : get_mpaa_rating { emptyPage with subtextText := some (str "TV-14 | 1h") } = none := by decide
example :
    get_non_oscar_wins (blurbPage (some (str "Won 2 Oscars. Another 5 wins.")) (some (str "5 wins"))) = some 5 := by decide
example :
    get_country (pageWithH4s [{ childStrings := [str "Country:"], parentText := str "Country: France", nextText := [] },
      { childStrings := [str "Country:"], parentText := str "Country: Japan", nextText := [] }]) = some (str "Japan") := by decide

/-!
Spec-side helper predicates, used to phrase the theorems in the claims'
vocabulary.
-/

/-- An `h4` element carrying the `'Country:'` label. -/
def isCountryMarker (e : H4) : Bool := e.childStrings.contains (str "Country:")

/-- The decision `get_country` takes on one enclosing text: both names,
Japan alone, USA alone, or nothing. -/
def countryOf (raw : Str) : Option Str :=
  if strContains raw (str "Japan") && strContains raw (str "USA") then
    some (str "Japan, USA")
  else if strContains raw (str "Japan") then some (str "Japan")
  else if strContains raw (str "USA") then some (str "USA")
  else none

/-- Whether an optional sibling text exists and contains `'win'` after
stripping. -/
def sibHasWin : Option Str → Bool
  | none => false
  | some st => strContains (pyStrip st) (str "win")

/-!
Claim theorems.
-/

/-- C3: on the code as written, the claim's closed rating set is wrong at
`TV-14` (and `TV-MA`): the source's list juxtaposes `'TV-14' 'TV-MA'`
without a comma, so Python concatenates them into the single entry
`TV-14TV-MA` and a subtext whose first token is `TV-14` is rejected,
while the tokens the claim and the code agree on behave as documented
(`PG` accepted, `Not Rated` rejected). -/
theorem mpaa_rating_tv14_rejected_eval :
    get_mpaa_rating { emptyPage with subtextText := some (str "TV-14 | 1h 30min") } = none ∧
    get_mpaa_rating { emptyPage with subtextText := some (str "TV-MA | 1h 30min") } = none ∧
    (str "TV-14TV-MA") ∈ mpaa_ratings ∧ (str "TV-14") ∉ mpaa_ratings ∧
    get_mpaa_rating { emptyPage with subtextText := some (str "PG | 1h 32min") } = some (str "PG") ∧
    get_mpaa_rating { emptyPage with subtextText := some (str "Not Rated") } = none := by
  decide

/-- C8: a parsed total of 250 yields exactly 3 listing URLs and a parsed
total of 100 yields exactly 2. -/
theorem search_urls_250_and_100_counts :
    (get_search_urls (descWorld (str "1-100 of 250 titles.")) (str "base") (str "next101")).map List.length = some 3 ∧
    (get_search_urls (descWorld (str "100 titles.")) (str "base") (str "next101")).map List.length = some 2 := by
  decide

/-- C10: the additional listing URLs are built with a global substring
replacement of `101`: on a second URL holding `101` twice, the generated
URL replaces both occurrences, and so differs from the spec's single
offset substitution; on the repository's real second URL, where `101`
occurs only as the offset token, the two substitutions agree. -/
theorem search_urls_global_replace :
    get_search_urls (descWorld (str "1-100 of 299 titles.")) (str "base") (str "x101y101") =
      some [str "base", str "x101y101", str "x201y201"] ∧
    replaceFirstAux (str "101") (str "201") (str "x101y101") = str "x201y101" ∧
    replaceAll (str "x101y101") (str "101") (str "201") ≠
      replaceFirstAux (str "101") (str "201") (str "x101y101") ∧
    replaceAll JAPAN_NEXT_URL (str "101") (str "201") =
      replaceFirstAux (str "101") (str "201") JAPAN_NEXT_URL := by
  decide

/-- C2 counterexample: with a parsed total of exactly 200 (a multiple of
the page size), the claim's count `ceil(200/100) - 2 = 0` predicts the
sequence `[first URL, second URL]`, but the code produces one additional
URL, three in total. -/
theorem search_urls_multiple_of_100_counterexample :
    (get_search_urls (descWorld (str "1-100 of 200 titles.")) (str "base") (str "next101")).map List.length = some 3 ∧
    2 + ((200 + 99) / 100 - 2) = 2 := by
  decide

/-- C7 counterexample: on the claim's literal enclosing-block text
`Budget:$1,234,567 (estimated)` — decoration after a space, not after a
newline — the cleaner leaves ` (estimated)` in place and the `int()`
parse fails (a `ValueError` in the source), so no budget is produced,
against the claim's `1234567`. -/
theorem budget_space_estimated_counterexample :
    get_budget idConv { emptyPage with budgetBlockText := some (str "Budget:$1,234,567 (estimated)") } = none ∧
    clean_budget (pyStrip (str "Budget:$1,234,567 (estimated)")) = str "$1234567 (estimated)" := by
  decide

/-- C7 amended: when the `(estimated)` decoration follows a newline — the
shape the cleaner's `re.sub('\n.+', '')` strips — the extractor returns
`1234567`; and `Budget:JPY500000000` is converted via the FX collaborator
from `JPY` to `USD` on the amount `500000000` at the pinned date
July 10 2020, whatever that collaborator computes. -/
theorem budget_normalization_newline_and_fx (convert : Conv) :
    get_budget convert { emptyPage with budgetBlockText := some (str "Budget:$1,234,567\n(estimated)") } = some 1234567 ∧
    get_budget convert { emptyPage with budgetBlockText := some (str "Budget:JPY500000000") } =
      some (convert (str "JPY") (str "USD") 500000000 jul_10_2020) := by
  exact ⟨rfl, rfl⟩

/-- C9 counterexample: a description whose token sequence starts with
`titles.` has no token preceding it, which the claim reads as a parse
failure; but the source indexes position `-1`, Python wraps to the last
token, and the call returns that token's value instead of failing. -/
theorem num_titles_leading_titles_token_counterexample :
    pyIndexOf (pySplit (str "titles. 5")) (str "titles.") = some 0 ∧
    get_num_titles (descWorld (str "titles. 5")) (str "u") = some 5 := by
  decide

/-- C6 counterexample: the first `Country:` marker's enclosing text
(`Country: France`) contains neither Japan nor USA, so under the claim
the extractor must return `None` without consulting later markers; the
code instead keeps scanning and returns `Japan` from the second marker. -/
theorem country_scans_past_first_marker_counterexample :
    isCountryMarker { childStrings := [str "Country:"], parentText := str "Country: France", nextText := [] } = true ∧
    countryOf (pyStrip (str "Country: France")) = none ∧
    get_country (pageWithH4s
      [{ childStrings := [str "Country:"], parentText := str "Country: France", nextText := [] },
       { childStrings := [str "Country:"], parentText := str "Country: Japan", nextText := [] }]) =
      some (str "Japan") := by
  decide

/-- C4 counterexample: for a link whose detail page yields no country at
all, the claim says the release-info page is not fetched; the code's
fetch trace nevertheless contains the release-info URL (the second fetch
is unconditional), while both dates are indeed `None`. -/
theorem release_info_always_fetched_counterexample :
    (get_movie_dict emptyWorld idConv (str "/title/tt1/")).1.country = none ∧
    (get_movie_dict emptyWorld idConv (str "/title/tt1/")).2 =
      [str "https://www.imdb.com/title/tt1/", str "https://www.imdb.com/title/tt1/releaseinfo"] ∧
    (get_movie_dict emptyWorld idConv (str "/title/tt1/")).1.japan_release_date = none ∧
    (get_movie_dict emptyWorld idConv (str "/title/tt1/")).1.usa_release_date = none := by
  decide

/-- C1: in every produced record the two release dates are mutually
exclusive: they are never both non-null, the USA date is null unless the
country is exactly `USA`, the Japan date is null unless the country is
exactly `Japan`, and for any other country value (including `Japan, USA`
and no country at all) both dates are null. -/
theorem movie_dict_release_dates_mutually_exclusive
    (w : Str → Page) (convert : Conv) (link : Str) :
    ((get_movie_dict w convert link).1.japan_release_date = none ∨
      (get_movie_dict w convert link).1.usa_release_date = none) ∧
    ((get_movie_dict w convert link).1.usa_release_date = none ∨
      (get_movie_dict w convert link).1.country = some (str "USA")) ∧
    ((get_movie_dict w convert link).1.japan_release_date = none ∨
      (get_movie_dict w convert link).1.country = some (str "Japan")) ∧
    ((get_movie_dict w convert link).1.country = some (str "Japan") ∨
      (get_movie_dict w convert link).1.country = some (str "USA") ∨
      ((get_movie_dict w convert link).1.japan_release_date = none ∧
        (get_movie_dict w convert link).1.usa_release_date = none)) := by
  simp only [get_movie_dict, create_soup]
  by_cases hJ : get_country (w (str "https://www.imdb.com" ++ link)) = some (str "Japan")
  · simp [hJ]
  · by_cases hU : get_country (w (str "https://www.imdb.com" ++ link)) = some (str "USA")
    · have hne : (str "USA" : Str) ≠ str "Japan" := by decide
      simp [hJ, hU, hne]
    · simp [hJ, hU]

/-- C4 amended: the release-info page is fetched unconditionally — the
fetch trace of every call is exactly the detail URL followed by the
release-info URL, whatever the country — and the country gates only
which date is extracted from it: unless the country is exactly `Japan`
or exactly `USA`, both dates are null (but the second fetch still
happened). -/
theorem release_info_fetch_unconditional
    (w : Str → Page) (convert : Conv) (link : Str) :
    (get_movie_dict w convert link).2 =
      [str "https://www.imdb.com" ++ link,
       (str "https://www.imdb.com" ++ link) ++ str "releaseinfo"] ∧
    ((get_movie_dict w convert link).1.country = some (str "Japan") ∨
      (get_movie_dict w convert link).1.country = some (str "USA") ∨
      ((get_movie_dict w convert link).1.japan_release_date = none ∧
        (get_movie_dict w convert link).1.usa_release_date = none)) := by
  constructor
  · rfl
  · simp only [get_movie_dict, create_soup]
    by_cases hJ : get_country (w (str "https://www.imdb.com" ++ link)) = some (str "Japan")
    · simp [hJ]
    · by_cases hU : get_country (w (str "https://www.imdb.com" ++ link)) = some (str "USA")
      · have hne : (str "USA" : Str) ≠ str "Japan" := by decide
        simp [hJ, hU, hne]
      · simp [hJ, hU]

/-- C5: `get_non_oscar_wins` obeys the documented precedence.  When the
blurb text mentions `Oscar` and a following sibling exists whose
stripped text contains `win` and holds an all-digit token, that token is
the answer; when the sibling branch's gate fails (no `Oscar` mention, or
no win-bearing sibling), the blurb's own text decides, its first
all-digit token being returned exactly when it contains `win`.  In
particular `Won 2 Oscars. Another 5 wins.` with sibling `5 wins` yields
`5`, and `12 wins & 3 nominations` with no Oscar mention yields `12`. -/
theorem non_oscar_wins_precedence :
    (∀ b st n, strContains b (str "Oscar") = true →
      strContains (pyStrip st) (str "win") = true →
      firstDigitToken (pyStrip st) = some n →
      get_non_oscar_wins (blurbPage (some b) (some st)) = some n) ∧
    (∀ b sib, (strContains b (str "Oscar") = false ∨ sibHasWin sib = false) →
      get_non_oscar_wins (blurbPage (some b) sib) =
        (if strContains (pyStrip b) (str "win") = true then
          firstDigitToken (pyStrip b) else none)) ∧
    get_non_oscar_wins (blurbPage (some (str "Won 2 Oscars. Another 5 wins."))
      (some (str "5 wins"))) = some 5 ∧
    get_non_oscar_wins (blurbPage (some (str "12 wins & 3 nominations")) none) = some 12 := by
  refine ⟨?_, ?_, by decide, by decide⟩
  · intro b st n h1 h2 h3
    simp [get_non_oscar_wins, blurbPage, h1, h2, h3]
  · intro b sib h
    rcases h with h | h
    · cases sib <;> simp [get_non_oscar_wins, blurbPage, h]
    · cases sib with
      | none => simp [get_non_oscar_wins, blurbPage, sibHasWin]
      | some st =>
        simp only [sibHasWin] at h
        by_cases ho : strContains b (str "Oscar") = true <;>
          simp [get_non_oscar_wins, blurbPage, h, ho]

/-- Witness for C5: the sibling branch fires on a concrete input. -/
theorem non_oscar_wins_precedence_witness :
    get_non_oscar_wins (blurbPage (some (str "Won 1 Oscar. Another 7 wins."))
      (some (str "7 wins total"))) = some 7 :=
  non_oscar_wins_precedence.1 (str "Won 1 Oscar. Another 7 wins.")
    (str "7 wins total") 7 (by decide) (by decide) (by decide)

/-- One step of the country scan: a marker element answers with its
text's decision when there is one and otherwise hands over to the rest
of the list, exactly as a non-marker element does. -/
lemma countryLoop_cons (e : H4) (rest : List H4) :
    countryLoop (e :: rest) =
      if isCountryMarker e = true then
        match countryOf (pyStrip e.parentText) with
        | some v => some v
        | none => countryLoop rest
      else countryLoop rest := by
  by_cases hm : str "Country:" ∈ e.childStrings
  · by_cases h2 : strContains (pyStrip e.parentText) (str "Japan") = true <;>
      by_cases h3 : strContains (pyStrip e.parentText) (str "USA") = true <;>
      simp [countryLoop, isCountryMarker, countryOf, hm, h2, h3]
  · simp [countryLoop, isCountryMarker, countryOf, hm]

/-- C6 amended: the country extractor returns the decision of the first
`Country:` marker whose enclosing text contains Japan or USA; a marker
whose text contains neither does not stop the scan — later markers are
consulted — and `None` comes back only when no marker decides. -/
theorem country_first_matching_marker :
    (∀ pre e post,
      (∀ x, x ∈ pre → isCountryMarker x = false ∨ countryOf (pyStrip x.parentText) = none) →
      isCountryMarker e = true → countryOf (pyStrip e.parentText) ≠ none →
      get_country (pageWithH4s (pre ++ e :: post)) = countryOf (pyStrip e.parentText)) ∧
    (∀ l, (∀ x, x ∈ l → isCountryMarker x = false ∨ countryOf (pyStrip x.parentText) = none) →
      get_country (pageWithH4s l) = none) := by
  have hpage : ∀ l, get_country (pageWithH4s l) = countryLoop l := fun l => rfl
  constructor
  · intro pre
    induction pre with
    | nil =>
      intro e post _ hm hv
      rw [hpage, List.nil_append, countryLoop_cons, if_pos hm]
      cases hc : countryOf (pyStrip e.parentText) with
      | none => exact absurd hc hv
      | some v => rfl
    | cons x pre ih =>
      intro e post hpre hm hv
      have hx := hpre x (List.mem_cons_self x pre)
      have hrest : ∀ y, y ∈ pre → isCountryMarker y = false ∨ countryOf (pyStrip y.parentText) = none :=
        fun y hy => hpre y (List.mem_cons_of_mem x hy)
      rw [hpage, List.cons_append, countryLoop_cons]
      by_cases hxm : isCountryMarker x = true
      · rcases hx with hx | hx
        · exact absurd hxm (by simp [hx])
        · rw [if_pos hxm, hx]
          show countryLoop (pre ++ e :: post) = countryOf (pyStrip e.parentText)
          rw [← hpage]
          exact ih e post hrest hm hv
      · rw [if_neg hxm, ← hpage]
        exact ih e post hrest hm hv
  · intro l
    induction l with
    | nil => intro _; rfl
    | cons x rest ih =>
      intro hl
      have hx := hl x (List.mem_cons_self x rest)
      have hrest : ∀ y, y ∈ rest → isCountryMarker y = false ∨ countryOf (pyStrip y.parentText) = none :=
        fun y hy => hl y (List.mem_cons_of_mem x hy)
      rw [hpage, countryLoop_cons]
      by_cases hxm : isCountryMarker x = true
      · rcases hx with hx | hx
        · exact absurd hxm (by simp [hx])
        · rw [if_pos hxm, hx]
          show countryLoop rest = none
          rw [← hpage]
          exact ih hrest
      · rw [if_neg hxm, ← hpage]
        exact ih hrest

/-- Witness for C6: a non-deciding plain element before a Japan-deciding
marker does not disturb the scan. -/
theorem country_first_matching_marker_witness :
    get_country (pageWithH4s
      [{ childStrings := [], parentText := str "x", nextText := [] },
       { childStrings := [str "Country:"], parentText := str "Country: Japan", nextText := [] }]) =
      some (str "Japan") := by
  have h := country_first_matching_marker.1
    [{ childStrings := [], parentText := str "x", nextText := [] }]
    { childStrings := [str "Country:"], parentText := str "Country: Japan", nextText := [] }
    []
    (by intro x hx
        rw [List.mem_singleton] at hx
        subst hx
        exact Or.inl (by decide))
    (by decide) (by decide)
  exact h.trans (by decide)

/-- A found index is within bounds. -/
lemma pyIndexOf_lt_length : ∀ {l : List Str} {x : Str} {i : Nat},
    pyIndexOf l x = some i → i < l.length := by
  intro l
  induction l with
  | nil => intro x i h; simp [pyIndexOf] at h
  | cons y rest ih =>
    intro x i h
    simp only [pyIndexOf] at h
    by_cases hy : y = x
    · rw [if_pos hy] at h
      injection h with h
      subst h
      simp
    · rw [if_neg hy] at h
      cases hr : pyIndexOf rest x with
      | none => rw [hr] at h; simp at h
      | some j =>
        rw [hr] at h
        simp only [Option.map_some'] at h
        injection h with h
        have hj := ih hr
        simp only [List.length_cons]
        omega

/-- Python's `l[i-1]` for a valid index `i`: position `i-1` for positive
`i`, and the last element when `i = 0` (negative-index wrap-around). -/
lemma pyGet_pred (l : List Str) (i : Nat) (hlt : i < l.length) :
    pyGet l ((i : Int) - 1) =
      l.get? (if i = 0 then l.length - 1 else i - 1) := by
  cases i with
  | zero =>
    have h1 : ((0 : Nat) : Int) - 1 = -1 := by norm_num
    rw [h1]
    have hpos : 0 < l.length := hlt
    simp only [pyGet]
    rw [if_neg (by norm_num)]
    rw [if_pos (by simp; omega)]
    simp
  | succ j =>
    have h1 : ((j + 1 : Nat) : Int) - 1 = (j : Int) := by push_cast; ring
    rw [h1]
    simp only [pyGet]
    rw [if_pos (by positivity)]
    simp

/-- C9 amended: the pagination count parser fails exactly when the token
sequence lacks the literal token `titles.` or the token at Python index
`(first index of titles.) - 1` — which wraps around to the LAST token
when `titles.` comes first — is not `int()`-parsable after stripping
commas; otherwise it returns that token's value. -/
theorem num_titles_parse_characterization (d u : Str) :
    (pyIndexOf (pySplit d) (str "titles.") = none →
      get_num_titles (descWorld d) u = none) ∧
    (∀ i, pyIndexOf (pySplit d) (str "titles.") = some i →
      get_num_titles (descWorld d) u =
        match (pySplit d).get? (if i = 0 then (pySplit d).length - 1 else i - 1) with
        | none => none
        | some tok => pyIntParse (replaceAll tok (str ",") [])) := by
  have hstep : get_num_titles (descWorld d) u =
      (match pyIndexOf (pySplit d) (str "titles.") with
      | none => none
      | some idx =>
        match pyGet (pySplit d) ((idx : Int) - 1) with
        | none => none
        | some tok => pyIntParse (replaceAll tok (str ",") [])) := rfl
  constructor
  · intro h
    rw [hstep, h]
  · intro i h
    have hlt : i < (pySplit d).length := pyIndexOf_lt_length h
    rw [hstep, h]
    show (match pyGet (pySplit d) ((i : Int) - 1) with
      | none => none
      | some tok => pyIntParse (replaceAll tok (str ",") [])) =
      (match (pySplit d).get? (if i = 0 then (pySplit d).length - 1 else i - 1) with
      | none => none
      | some tok => pyIntParse (replaceAll tok (str ",") []))
    rw [pyGet_pred (pySplit d) i hlt]

/-- Witness for C9 amended: a normal description parses its count. -/
theorem num_titles_parse_characterization_witness :
    get_num_titles (descWorld (str "1-100 of 1,234 titles.")) (str "u") = some 1234 := by
  have h := (num_titles_parse_characterization (str "1-100 of 1,234 titles.") (str "u")).2
    3 (by decide)
  exact h.trans (by decide)

/-- C2 amended: for a parsed total `T`, the discoverer returns the first
URL, the second URL, and then exactly `floor(T/100) - 1` additional URLs
(not the claimed `ceil(T/100) - 2`, which is one fewer whenever `T` is a
positive multiple of 100), the i-th being the second URL with every
occurrence of `101` replaced by `201 + 100*i`. -/
theorem search_urls_floor_formula (w : Str → Page) (base next : Str) (T : Int)
    (h : get_num_titles w base = some T) :
    ∃ rest, get_search_urls w base next = some (base :: next :: rest) ∧
      rest.length = (Int.fdiv T 100 - 1).toNat ∧
      ∀ i, i < rest.length →
        rest.get? i = some (replaceAll next (str "101") (natToStr (201 + 100 * i))) := by
  refine ⟨(List.range (Int.fdiv T 100 - 1).toNat).map
      (fun i => replaceAll next (str "101") (natToStr (201 + 100 * i))), ?_, ?_, ?_⟩
  · unfold get_search_urls
    rw [h]
  · simp
  · intro i hi
    rw [List.length_map, List.length_range] at hi
    rw [List.get?_map, List.get?_range hi]
    rfl

/-- Witness for C2 amended: a total of 500 yields 2 + 4 URLs. -/
theorem search_urls_floor_formula_witness :
    (get_search_urls (descWorld (str "1-100 of 500 titles.")) (str "b") (str "n101")).map List.length = some 6 := by
  obtain ⟨rest, heq, hlen, -⟩ :=
    search_urls_floor_formula (descWorld (str "1-100 of 500 titles.")) (str "b") (str "n101")
      500 (by decide)
  rw [heq]
  have h4 : ((Int.fdiv 500 100 - 1).toNat : Nat) = 4 := by decide
  rw [h4] at hlen
  simp [hlen]
